import Mathlib

/-!
Shallow embedding of `misopy/sashimi_plot/plot.py` (sashimi-plot), the
visualization dispatcher of the MISO repository, together with theorems
settling the specification claims about it.

The embedding models each dispatcher path (`plot_event`, `plot_insert_len`,
`plot_posterior`) and the CLI entry point `main` as pure functions that
return the ordered list of observable effects the Python code performs
(filesystem checks, shelve store operations, chart calls, dispatch calls)
together with the outcome (`Except` for the exceptions the code raises).
External collaborators that live in the repository but outside the provided
source file (the `Sashimi` renderer, `pe_utils` statistics engine, path
normalization) are modelled from the spec or kept as explicit parameters.
-/

namespace SashimiPlot

/-- `os.path.join dir name` for a relative `name`, as used at
`plot.py` line 36: `os.path.join(pickle_dir, "genes_to_filenames.shelve")`:
a `/` separator is inserted unless `dir` already ends in one. -/
def os_path_join (a b : String) : String :=
  if a.data.getLast? = some '/' then a ++ b else a ++ "/" ++ b

/-- `os.path.basename p`: the characters after the last `/`
(`plot.py` line 62: `plot_name = os.path.basename(insert_len_filename)`). -/
def os_path_basename (p : String) : String :=
  ⟨p.data.foldl (fun acc c => if c = '/' then [] else acc ++ [c]) []⟩

/-- Modelled from the spec: `os.path.abspath(os.path.expanduser(...))` is the
out-of-scope file-path normalization collaborator ("Out of scope: ...
file-path normalization"); modelled as the identity on already-normal paths. -/
def abspath_expanduser (p : String) : String := p

/-- The observable effects performed by the dispatcher paths and `main`,
in source order. One shared type so that the absence of an effect kind in
one path's trace is meaningful against its presence in another path's. -/
inductive Eff where
  | isfileCheck (p : String)
  | shelveOpen (p : String) (flag : String)
  | shelveClose (p : String)
  | renderDensity (settings_filename pickle_filename event_name output_dir : String)
  | sashimiInit (plot_name output_dir settings_filename : String)
  | settingsGet (key : String)
  | subplot
  | printOut (s : String)
  | loadInsertLen (p : String)
  | computeStats (mean sdev dispersion : Rat) (num_pairs : Nat)
  | printMinMax (mn mx : Rat)
  | chartTitle (plot_name : String) (num_pairs : Nat)
  | histogram (bins : Int)
  | axesSquare
  | chartText (mean sdev dispersion : Rat)
  | chartXLabel (s : String)
  | chartYLabel (s : String)
  | savePlot (output_filename : String)
  | loadSamples (p : String)
  | parseSamplerParams (p : String)
  | samplesPlotterInit
  | renderPosterior
  | makedirs (d : String)
  | callInsertLen (insert_len_filename settings_filename output_dir : String)
  | callPosterior (miso_filename settings_filename output_dir : String)
  | callEvent (event_name pickle_dir settings_filename output_dir : String)
deriving DecidableEq, Repr

/-- Whether an effect is a `shelve` close (used to state release/non-release
of the persistent store). -/
def Eff.isShelveClose : Eff → Bool
  | .shelveClose _ => true
  | _ => false

/-- Whether an effect is a dispatch from `main` into one of the three
implemented paths. -/
def Eff.isDispatchCall : Eff → Bool
  | .callInsertLen _ _ _ => true
  | .callPosterior _ _ _ => true
  | .callEvent _ _ _ _ => true
  | _ => false

/-- The two exceptions raised by `plot_event` (`plot.py` lines 40 and 46):
one when the index store file is missing, one when the event key is absent
from an existing store. Each constructor carries exactly the data the
corresponding `%`-format message interpolates. -/
inductive PlotError where
  | indexFileMissing (genes_filename : String)
  | eventMissing (event_name pickle_dir : String)
deriving DecidableEq, Repr

/-- The exception message strings of `plot.py` lines 40-42 and 46-48. -/
def PlotError.message : PlotError → String
  | .indexFileMissing gf =>
      "Cannot find file " ++ gf ++ ". Are you sure the events " ++
      "were indexed with the latest version of index_gff.py?"
  | .eventMissing ev dir =>
      "Event " ++ ev ++ " not found in pickled directory " ++ dir ++ ". " ++
      "Are you sure this is the right directory for the event?"

/-- The ambient filesystem and shelve-store state a dispatcher invocation
runs against: which paths name existing files, and the key-to-path contents
of each shelve store file. -/
structure World where
  files : List String
  shelves : List (String × List (String × String))
deriving Repr

/-- `os.path.isfile p` against the modelled filesystem. -/
def os_path_isfile (w : World) (p : String) : Bool :=
  w.files.contains p

/-- `shelve.open p` (read path): the contents of the store file `p`.
Python's default flag is `"c"` (open for read and write, creating the file
if necessary); a store path with no recorded contents reads as empty. -/
def shelveContents (w : World) (p : String) : List (String × String) :=
  ((w.shelves.find? (fun e => e.1 == p)).map (fun e => e.2)).getD []

/-- Key membership in a shelve store (`event_name not in event_to_filenames`,
`plot.py` line 45). -/
def shelfHasKey (store : List (String × String)) (k : String) : Bool :=
  store.any (fun e => e.1 == k)

/-- Key lookup in a shelve store (`event_to_filenames[event_name]`,
`plot.py` line 50). -/
def shelfGet (store : List (String × String)) (k : String) : Option String :=
  (store.find? (fun e => e.1 == k)).map (fun e => e.2)

/-- Embedding of `plot_event(event_name, pickle_dir, settings_filename,
output_dir)` (`plot.py` lines 27-53). Source order:
line 36 builds `genes_filename`; line 39 checks `os.path.isfile` and raises
(line 40) if absent; line 44 opens the shelve with the default `"c"` flag;
line 45 checks key membership and raises (line 46) if absent; line 50 reads
the stored filename; lines 52-53 call `plot_density_from_file`. No
`close()` appears anywhere in the function, and the resolved
`pickle_filename` is never existence-checked before the render call. -/
def plot_event (event_name pickle_dir settings_filename output_dir : String)
    (w : World) : List Eff × Except PlotError Unit :=
  let genes_filename := os_path_join pickle_dir "genes_to_filenames.shelve"
  if ¬ os_path_isfile w genes_filename then
    ([.isfileCheck genes_filename], .error (.indexFileMissing genes_filename))
  else
    let event_to_filenames := shelveContents w genes_filename
    let effs := [Eff.isfileCheck genes_filename, Eff.shelveOpen genes_filename "c"]
    if ¬ shelfHasKey event_to_filenames event_name then
      (effs, .error (.eventMissing event_name pickle_dir))
    else
      let pickle_filename := (shelfGet event_to_filenames event_name).getD ""
      (effs ++ [.renderDensity settings_filename pickle_filename event_name output_dir],
       .ok ())

/-- Modelled from the spec: the external gene-model renderer
`plot_density_from_file` (in `plot_utils/plot_gene.py`, not under the
provided source) "reads a precomputed artifact"; per the spec's end-to-end
scenario, reading a non-existent artifact fails with a not-found error.
Only its artifact-read step is modelled. -/
def plot_density_reads (w : World) (pickle_filename : String) :
    Except String Unit :=
  if os_path_isfile w pickle_filename then .ok ()
  else .error ("Cannot read artifact " ++ pickle_filename)

/-! ### Insert-length path -/

/-- The record returned by the external statistics engine
`pe_utils.compute_insert_len_stats` (in `misopy/pe_utils.py`, not under the
provided source): mean, standard deviation, dispersion and read-pair count
(`mean, sdev, dispersion, num_pairs`, `plot.py` lines 78-79). The engine's
internals are kept abstract; `plot_insert_len` receives it as an explicit
collaborator parameter. -/
structure ILStats where
  mean : Rat
  sdev : Rat
  dispersion : Rat
  num_pairs : Nat
deriving DecidableEq, Repr

/-- Python settings access `settings["insert_len_bins"]` (`plot.py` line 68):
`none` models the `KeyError` case. -/
def settings_get (settings : List (String × Int)) (k : String) : Option Int :=
  (settings.find? (fun e => e.1 == k)).map (fun e => e.2)

/-- Round half away from zero to an integer, as Python 2's `round`
breaks ties (this is a Python 2 source). -/
def roundHalfAwayFromZero (q : Rat) : Int :=
  if q < 0 then -⌊-q + 1/2⌋ else ⌊q + 1/2⌋

/-- Python 2 `round(x, 2)` on an idealized (exact rational) value:
two decimal places, ties away from zero. -/
def pythonRound2 (q : Rat) : Rat :=
  (roundHalfAwayFromZero (q * 100) : Rat) / 100

/-- Modelled from the spec: the `Sashimi` collaborator (in
`sashimi_plot/Sashimi.py`, not under the provided source) derives its
`output_filename` by the "designated output-file convention": one output
file under `output_dir` "named by convention from the input file's base
name (exact extension governed by the external rendering collaborator's
configured output format)". The extension is left off the model. -/
def sashimi_output_filename (output_dir plot_name : String) : String :=
  os_path_join output_dir plot_name

/-- The errors the insert-length path can raise before reaching its render
calls: a `KeyError` from `settings["insert_len_bins"]` and a `ValueError`
from `min(insert_dist)` on an empty sequence. -/
inductive ILError where
  | keyError (k : String)
  | valueErrorEmptySeq
deriving DecidableEq, Repr

/-- Embedding of `plot_insert_len(insert_len_filename, settings_filename,
output_dir)` (`plot.py` lines 56-102). The file contents loaded by the
external `pe_utils.load_insert_len` are the parameter `insert_dist`
(its second component `params` is unused by the source); the external
statistics engine is the parameter `engine`; the settings mapping parsed
by the `Sashimi` collaborator is the parameter `settings`. Source order:
line 62 `plot_name = os.path.basename(...)`; line 64 `Sashimi(...)`;
line 68 `settings["insert_len_bins"]`; line 69 `output_filename`; line 70
`plt.subplot`; lines 72-74 prints; line 76 load; lines 78-79 stats; lines
80-81 `min`/`max` prints; line 82 `plt.title`; line 86 `plt.hist` with
`bins=num_bins`; line 88 `axes_square`; line 90 `plt.text` with the
`round(·, 2)` statistics; lines 100-101 axis labels; line 102
`sashimi_obj.save_plot()`. No existence check of `insert_len_filename`
appears anywhere. -/
def plot_insert_len (insert_len_filename settings_filename output_dir : String)
    (settings : List (String × Int)) (insert_dist : List Rat)
    (engine : List Rat → ILStats) : List Eff × Except ILError Unit :=
  let plot_name := os_path_basename insert_len_filename
  let e0 := [Eff.sashimiInit plot_name output_dir settings_filename,
             Eff.settingsGet "insert_len_bins"]
  match settings_get settings "insert_len_bins" with
  | none => (e0, .error (.keyError "insert_len_bins"))
  | some num_bins =>
    let output_filename := sashimi_output_filename output_dir plot_name
    let e1 := e0 ++ [Eff.subplot,
      Eff.printOut "Plotting insert length distribution...",
      Eff.printOut ("  - Distribution file: " ++ insert_len_filename),
      Eff.printOut ("  - Output plot: " ++ output_filename),
      Eff.loadInsertLen insert_len_filename]
    let st := engine insert_dist
    let e2 := e1 ++ [Eff.computeStats st.mean st.sdev st.dispersion st.num_pairs]
    match insert_dist with
    | [] => (e2, .error .valueErrorEmptySeq)
    | d :: ds =>
      let mn := ds.foldl min d
      let mx := ds.foldl max d
      (e2 ++ [Eff.printMinMax mn mx,
        Eff.chartTitle plot_name st.num_pairs,
        Eff.histogram num_bins,
        Eff.axesSquare,
        Eff.chartText (pythonRound2 st.mean) (pythonRound2 st.sdev)
          (pythonRound2 st.dispersion),
        Eff.chartXLabel "Insert length (nt)",
        Eff.chartYLabel "No. read pairs",
        Eff.savePlot output_filename], .ok ())

/-! ### Posterior path: Python name-resolution semantics -/

/-- Python's two unbound-name exceptions: `UnboundLocalError` for a local
variable (a name assigned somewhere in the function) read before its first
assignment, and `NameError` for a name neither local, global nor builtin. -/
inductive PyScopeError where
  | unboundLocal (n : String)
  | nameError (n : String)
deriving DecidableEq, Repr

/-- Equality of `Except` outcomes is decidable when it is on both sides. -/
instance exceptDecEq {ε α : Type} [DecidableEq ε] [DecidableEq α] :
    DecidableEq (Except ε α) := fun x y =>
  match x, y with
  | .ok a, .ok b =>
      if h : a = b then isTrue (by rw [h])
      else isFalse (by intro hc; cases hc; exact h rfl)
  | .error a, .error b =>
      if h : a = b then isTrue (by rw [h])
      else isFalse (by intro hc; cases hc; exact h rfl)
  | .ok _, .error _ => isFalse (by intro hc; cases hc)
  | .error _, .ok _ => isFalse (by intro hc; cases hc)

/-- Resolve one name read under Python scoping: `bound` holds the
parameters plus the locals assigned so far, `locals` all names the function
assigns anywhere (plus parameters), `globals` the module-level and builtin
names. -/
def readName (locals globals bound : List String) (n : String) :
    Except PyScopeError Unit :=
  if bound.contains n then .ok ()
  else if locals.contains n then .error (.unboundLocal n)
  else if globals.contains n then .ok ()
  else .error (.nameError n)

/-- Resolve a list of name reads left to right, stopping at the first
failure (Python evaluates subexpressions left to right and raises at the
first unresolvable name). -/
def readAll (locals globals bound : List String) :
    List String → Except PyScopeError Unit
  | [] => .ok ()
  | n :: ns => do
      readName locals globals bound n
      readAll locals globals bound ns

/-- The parameters of `plot_posterior` (`plot.py` line 105). -/
def pp_params : List String :=
  ["miso_filename", "settings_filename", "output_dir"]

/-- All names `plot_posterior` assigns anywhere in its body, plus its
parameters: Python treats every one of these as local throughout the
function. Assignments: line 110-111 (the six-target tuple), line 112
(`params`), line 114 (`sp`), lines 117/120 (`with_intervals`).
Neither `plot_mean` nor `dimensions` is ever assigned. -/
def pp_locals : List String :=
  pp_params ++ ["samples", "h", "log_scores", "sampled_map",
    "sampled_map_log_score", "counts_info", "params", "sp", "with_intervals"]

/-- Module-level names visible inside `plot_posterior`: the imports and
definitions of `plot.py` lines 8-24 and 27-197, plus the Python builtins the
body uses. Modelled from the spec for the star import of line 21
(`from ...plotting import *`, a module not under the provided source): per
the spec, `with_intervals`, `plot_mean` and `dimensions` are "referenced
without being parameters or assigned anywhere in scope", so that star
imported module does not provide them; `axes_square` (used at line 88)
does come from it. -/
def pp_globals : List String :=
  ["os", "matplotlib", "pysam", "shelve", "misopy", "gff_utils", "pe_utils",
   "load_samples", "parse_sampler_params", "Sashimi", "SamplesPlotter",
   "plot_density_from_file", "plt", "rc", "axes_square",
   "plot_event", "plot_insert_len", "plot_posterior", "main",
   "float", "int", "min", "max", "round", "dict", "None", "False", "True"]

/-- Name-resolution trace of the body of `plot_posterior` (`plot.py` lines
105-130) under Python scoping, statement by statement in source order.
`branch_wi` and `branch_pm` stand for the truth values of the two `if`
conditions (lines 116 and 122) in case they were reachable. The final
`pure ()` is reached only after every name in the `sp.plot(...)` renderer
call (line 129) has resolved, so an `.error` outcome means the renderer
was never invoked. -/
def plot_posterior_scope (branch_wi branch_pm : Bool) :
    Except PyScopeError Unit := do
  let L := pp_locals
  let G := pp_globals
  let b0 := pp_params
  readAll L G b0 ["load_samples", "miso_filename"]
  let b1 := b0 ++ ["samples", "h", "log_scores", "sampled_map",
    "sampled_map_log_score", "counts_info"]
  readAll L G b1 ["parse_sampler_params", "miso_filename"]
  let b2 := b1 ++ ["params"]
  readAll L G b2 ["SamplesPlotter", "samples", "params"]
  let b3 := b2 ++ ["sp"]
  readAll L G b3 ["with_intervals"]
  let b4 ← if branch_wi then do
      readAll L G b3 ["float", "with_intervals"]
      let b := b3 ++ ["with_intervals"]
      readAll L G b ["int", "with_intervals"]
      pure b
    else
      pure (b3 ++ ["with_intervals"])
  readAll L G b4 ["plot_mean"]
  let _ := branch_pm
  readAll L G b4 ["miso_filename", "output_dir"]
  readAll L G b4 ["sp", "with_intervals", "dimensions", "plot_mean"]
  pure ()

/-- Effect-trace embedding of `plot_posterior(miso_filename,
settings_filename, output_dir)` (`plot.py` lines 105-130), mirroring the
body statement by statement in source order like `plot_posterior_scope`,
but also recording each statement's observable effect once its name reads
have resolved; execution stops at the first unresolved name. Line 110
calls the external loader `load_samples(miso_filename)` directly — the
function contains no `os.path.isfile` check on any input — line 112 calls
`parse_sampler_params(miso_filename)`, line 114 constructs the
`SamplesPlotter`; then line 116 reads `with_intervals`. The statements
after that read (the branch bodies, the prints of lines 118/123/125-127
and the `sp.plot` renderer call of line 129) are kept for faithfulness
even though the read stops the path. -/
def plot_posterior (miso_filename settings_filename output_dir : String)
    (branch_wi branch_pm : Bool) : List Eff × Except PyScopeError Unit :=
  let L := pp_locals
  let G := pp_globals
  let b0 := pp_params
  match readAll L G b0 ["load_samples", "miso_filename"] with
  | .error e => ([], .error e)
  | .ok _ =>
  let effs1 := [Eff.loadSamples miso_filename]
  let b1 := b0 ++ ["samples", "h", "log_scores", "sampled_map",
    "sampled_map_log_score", "counts_info"]
  match readAll L G b1 ["parse_sampler_params", "miso_filename"] with
  | .error e => (effs1, .error e)
  | .ok _ =>
  let effs2 := effs1 ++ [Eff.parseSamplerParams miso_filename]
  let b2 := b1 ++ ["params"]
  match readAll L G b2 ["SamplesPlotter", "samples", "params"] with
  | .error e => (effs2, .error e)
  | .ok _ =>
  let effs3 := effs2 ++ [Eff.samplesPlotterInit]
  let b3 := b2 ++ ["sp"]
  match readAll L G b3 ["with_intervals"] with
  | .error e => (effs3, .error e)
  | .ok _ =>
  let step4 : List Eff × List String :=
    if branch_wi then
      match readAll L G b3 ["float", "with_intervals"] with
      | .error _ => ([], b3)
      | .ok _ =>
        let b := b3 ++ ["with_intervals"]
        match readAll L G b ["int", "with_intervals"] with
        | .error _ => ([], b)
        | .ok _ =>
          ([Eff.printOut "Plotting with %d-percent confidence intervals"], b)
    else
      ([], b3 ++ ["with_intervals"])
  let effs4 := effs3 ++ step4.1
  let b4 := step4.2
  match readAll L G b4 ["plot_mean"] with
  | .error e => (effs4, .error e)
  | .ok _ =>
  let effs5 := effs4 ++
    (if branch_pm then [Eff.printOut "Plotting mean of posterior."] else [])
  match readAll L G b4 ["miso_filename", "output_dir"] with
  | .error e => (effs5, .error e)
  | .ok _ =>
  let effs6 := effs5 ++
    [Eff.printOut "Plotting posterior distribution...",
     Eff.printOut ("  - MISO event file: " ++ miso_filename),
     Eff.printOut ("  - Output dir: " ++ output_dir)]
  match readAll L G b4 ["sp", "with_intervals", "dimensions", "plot_mean"] with
  | .error e => (effs6, .error e)
  | .ok _ => (effs6 ++ [Eff.renderPosterior], .ok ())

/-- The interval setting the posterior path would hand to the plotter:
either a central-interval fraction or no interval at all (the source's
`with_intervals = False`, line 120). -/
inductive IntervalSetting where
  | fraction (q : Rat)
  | noInterval
deriving DecidableEq, Repr

/-- Embedding of the credible-interval conversion of `plot_posterior`
(`plot.py` lines 116-120), with `with_intervals` as an explicit input since
the source reads it as a free name:
`if with_intervals != None: with_intervals = float(with_intervals)/100.`
`else: with_intervals = False`. The source performs no range validation of
the width and raises no exception here for any width value. -/
def convert_with_intervals : Option Rat → IntervalSetting
  | some w => .fraction (w / 100)
  | none => .noInterval

/-! ### CLI entry point -/

/-- The parsed option values of `main`'s `OptionParser` (`plot.py` lines
150-168): four plot flags, each `default=None` with a fixed argument count,
and `--output-dir`. The parser accepts `--plot-bf-dist` (line 157) like the
others; whether `main` dispatches on it is a separate question. -/
structure Options where
  plot_posterior : Option (String × String)
  plot_insert_len : Option (String × String)
  plot_bf_dist : Option (String × String)
  plot_event : Option (String × String × String)
  output_dir : Option String
deriving DecidableEq, Repr

/-- Embedding of `main()` (`plot.py` lines 148-194) after argument parsing:
the effect trace and the process exit status when `main` returns (the
script calls `main()` at top level, so a plain `return` ends the process
with status `0`; dispatched paths are modelled as `call*` effects, whose
own behavior is given by the path embeddings above). Source order: lines
171-173 print `"Error: need --output-dir"` and `return` when the option is
absent; line 175 normalizes the output dir; lines 177-178 `os.makedirs`
when it is not a directory; lines 180-183 dispatch `--plot-insert-len`;
lines 185-188 dispatch `--plot-posterior`; lines 190-194 dispatch
`--plot-event`. `options.plot_bf_dist` is never read. -/
def main (opts : Options) (isdir : String → Bool) : List Eff × Nat :=
  match opts.output_dir with
  | none => ([.printOut "Error: need --output-dir"], 0)
  | some od0 =>
    let output_dir := abspath_expanduser od0
    let e0 := if isdir output_dir then [] else [Eff.makedirs output_dir]
    let e1 := match opts.plot_insert_len with
      | some (f, s) =>
          [Eff.callInsertLen (abspath_expanduser f) (abspath_expanduser s)
            output_dir]
      | none => []
    let e2 := match opts.plot_posterior with
      | some (f, s) =>
          [Eff.callPosterior (abspath_expanduser f) (abspath_expanduser s)
            output_dir]
      | none => []
    let e3 := match opts.plot_event with
      | some (ev, d, s) =>
          [Eff.callEvent ev (abspath_expanduser d) (abspath_expanduser s)
            output_dir]
      | none => []
    (e0 ++ e1 ++ e2 ++ e3, 0)

/-- Whether an effect is a `save_plot` output persistence. -/
def Eff.isSavePlot : Eff → Bool
  | .savePlot _ => true
  | _ => false

/-- Whether an effect is a file-existence check (`os.path.isfile`). -/
def Eff.isFileExistenceCheck : Eff → Bool
  | .isfileCheck _ => true
  | _ => false

/-- Whether an effect is a statistics computation. -/
def Eff.isStatsComputation : Eff → Bool
  | .computeStats _ _ _ _ => true
  | _ => false

/-- A successful shelve lookup implies key membership. -/
theorem shelfGet_some_hasKey {store : List (String × String)} {k p : String}
    (h : shelfGet store k = some p) : shelfHasKey store k = true := by
  unfold shelfGet at h
  unfold shelfHasKey
  cases hf : store.find? (fun e => e.1 == k) with
  | none => rw [hf] at h; simp at h
  | some e =>
      have hp := List.find?_some hf
      exact List.any_eq_true.mpr ⟨e, List.mem_of_find?_eq_some hf, hp⟩

/-- `shelveContents` reads only the `shelves` component of the world. -/
theorem shelveContents_files {files₁ files₂ : List String}
    {sh : List (String × List (String × String))} {p : String} :
    shelveContents ⟨files₁, sh⟩ p = shelveContents ⟨files₂, sh⟩ p := rfl

end SashimiPlot

namespace SashimiPlot

/-- C1: on a missing index store file `plot_event` raises the
index-file-missing error carrying the index file path
(`pickle_dir/genes_to_filenames.shelve`); on an existing store that lacks
the event key it raises the event-missing error carrying both the event
identifier and the searched directory; and the two error branches are
distinguishable (distinct constructors for every argument choice). -/
theorem C1_resolution_error_branches
    (event_name pickle_dir settings_filename output_dir : String) (w : World) :
    (os_path_isfile w (os_path_join pickle_dir "genes_to_filenames.shelve") = false →
      plot_event event_name pickle_dir settings_filename output_dir w =
        ([.isfileCheck (os_path_join pickle_dir "genes_to_filenames.shelve")],
         .error (.indexFileMissing
           (os_path_join pickle_dir "genes_to_filenames.shelve")))) ∧
    (os_path_isfile w (os_path_join pickle_dir "genes_to_filenames.shelve") = true →
      shelfHasKey
        (shelveContents w (os_path_join pickle_dir "genes_to_filenames.shelve"))
        event_name = false →
      (plot_event event_name pickle_dir settings_filename output_dir w).2 =
        .error (.eventMissing event_name pickle_dir)) ∧
    (∀ g e d, PlotError.indexFileMissing g ≠ PlotError.eventMissing e d) := by
  refine ⟨fun h1 => ?_, fun h1 h2 => ?_, fun g e d h => by cases h⟩
  · simp [plot_event, h1]
  · simp [plot_event, h1, h2]

/-- Witness for C1: both error branches at concrete inputs. -/
theorem C1_resolution_error_branches_witness :
    (os_path_isfile ⟨[], []⟩
        (os_path_join "d" "genes_to_filenames.shelve") = false →
      plot_event "E1" "d" "s.txt" "out" ⟨[], []⟩ =
        ([.isfileCheck (os_path_join "d" "genes_to_filenames.shelve")],
         .error (.indexFileMissing
           (os_path_join "d" "genes_to_filenames.shelve")))) ∧
    (os_path_isfile ⟨["d/genes_to_filenames.shelve"],
        [("d/genes_to_filenames.shelve", [])]⟩
        (os_path_join "d" "genes_to_filenames.shelve") = true →
      shelfHasKey
        (shelveContents ⟨["d/genes_to_filenames.shelve"],
          [("d/genes_to_filenames.shelve", [])]⟩
          (os_path_join "d" "genes_to_filenames.shelve")) "E1" = false →
      (plot_event "E1" "d" "s.txt" "out"
        ⟨["d/genes_to_filenames.shelve"],
         [("d/genes_to_filenames.shelve", [])]⟩).2 =
        .error (.eventMissing "E1" "d")) :=
  ⟨(C1_resolution_error_branches "E1" "d" "s.txt" "out" ⟨[], []⟩).1,
   (C1_resolution_error_branches "E1" "d" "s.txt" "out"
      ⟨["d/genes_to_filenames.shelve"],
       [("d/genes_to_filenames.shelve", [])]⟩).2.1⟩

/-- Success-branch evaluation of `plot_event`: shared helper. When the
index store file exists and holds the event key, the invocation performs
exactly the existence check, the shelve open, and one render call with the
stored artifact path, and succeeds. -/
theorem plot_event_success_eval
    (event_name pickle_dir settings_filename output_dir p : String) (w : World)
    (h1 : os_path_isfile w
      (os_path_join pickle_dir "genes_to_filenames.shelve") = true)
    (h2 : shelfGet
      (shelveContents w (os_path_join pickle_dir "genes_to_filenames.shelve"))
      event_name = some p) :
    plot_event event_name pickle_dir settings_filename output_dir w =
      ([.isfileCheck (os_path_join pickle_dir "genes_to_filenames.shelve"),
        .shelveOpen (os_path_join pickle_dir "genes_to_filenames.shelve") "c",
        .renderDensity settings_filename p event_name output_dir], .ok ()) := by
  have hk := shelfGet_some_hasKey h2
  simp [plot_event, h1, hk, h2]

/-- C2: when the index store holds the event key, resolution succeeds and
the render call receives exactly the stored artifact path, with no
condition on (and no sensitivity to) whether that path exists on the
filesystem — the whole invocation is invariant under changing the file set
as long as the index store file itself stays present; any read of the
artifact, and hence any failure on a missing artifact, happens in the
external renderer, modelled by `plot_density_reads`. -/
theorem C2_resolve_ignores_artifact_existence
    (event_name pickle_dir settings_filename output_dir p : String)
    (files : List String) (sh : List (String × List (String × String)))
    (h1 : os_path_isfile ⟨files, sh⟩
      (os_path_join pickle_dir "genes_to_filenames.shelve") = true)
    (h2 : shelfGet
      (shelveContents ⟨files, sh⟩
        (os_path_join pickle_dir "genes_to_filenames.shelve"))
      event_name = some p) :
    ((plot_event event_name pickle_dir settings_filename output_dir
        ⟨files, sh⟩).2 = .ok ()) ∧
    (Eff.renderDensity settings_filename p event_name output_dir ∈
      (plot_event event_name pickle_dir settings_filename output_dir
        ⟨files, sh⟩).1) ∧
    (∀ files₂ : List String,
      os_path_isfile ⟨files₂, sh⟩
        (os_path_join pickle_dir "genes_to_filenames.shelve") = true →
      plot_event event_name pickle_dir settings_filename output_dir
          ⟨files₂, sh⟩ =
        plot_event event_name pickle_dir settings_filename output_dir
          ⟨files, sh⟩) ∧
    (os_path_isfile (⟨files, sh⟩ : World) p = false →
      plot_density_reads ⟨files, sh⟩ p =
        .error ("Cannot read artifact " ++ p)) := by
  have he := plot_event_success_eval event_name pickle_dir settings_filename
    output_dir p ⟨files, sh⟩ h1 h2
  refine ⟨by rw [he], by rw [he]; simp, fun files₂ h1' => ?_, fun hnf => ?_⟩
  · have h2' : shelfGet
        (shelveContents ⟨files₂, sh⟩
          (os_path_join pickle_dir "genes_to_filenames.shelve"))
        event_name = some p := h2
    rw [plot_event_success_eval event_name pickle_dir settings_filename
      output_dir p ⟨files₂, sh⟩ h1' h2', he]
  · simp [plot_density_reads, hnf]

/-- Witness for C2: a concrete store `{"E1" ↦ "/tmp/E1.artifact"}` whose
artifact path is absent from the filesystem. -/
theorem C2_resolve_ignores_artifact_existence_witness :
    ((plot_event "E1" "d" "s.txt" "out"
        ⟨["d/genes_to_filenames.shelve"],
         [("d/genes_to_filenames.shelve", [("E1", "/tmp/E1.artifact")])]⟩).2 =
      .ok ()) ∧
    (Eff.renderDensity "s.txt" "/tmp/E1.artifact" "E1" "out" ∈
      (plot_event "E1" "d" "s.txt" "out"
        ⟨["d/genes_to_filenames.shelve"],
         [("d/genes_to_filenames.shelve", [("E1", "/tmp/E1.artifact")])]⟩).1) ∧
    (∀ files₂ : List String,
      os_path_isfile ⟨files₂,
        [("d/genes_to_filenames.shelve", [("E1", "/tmp/E1.artifact")])]⟩
        (os_path_join "d" "genes_to_filenames.shelve") = true →
      plot_event "E1" "d" "s.txt" "out"
          ⟨files₂,
           [("d/genes_to_filenames.shelve", [("E1", "/tmp/E1.artifact")])]⟩ =
        plot_event "E1" "d" "s.txt" "out"
          ⟨["d/genes_to_filenames.shelve"],
           [("d/genes_to_filenames.shelve", [("E1", "/tmp/E1.artifact")])]⟩) ∧
    (os_path_isfile (⟨["d/genes_to_filenames.shelve"],
        [("d/genes_to_filenames.shelve", [("E1", "/tmp/E1.artifact")])]⟩ :
        World) "/tmp/E1.artifact" = false →
      plot_density_reads
        ⟨["d/genes_to_filenames.shelve"],
         [("d/genes_to_filenames.shelve", [("E1", "/tmp/E1.artifact")])]⟩
        "/tmp/E1.artifact" =
        .error ("Cannot read artifact " ++ "/tmp/E1.artifact")) :=
  C2_resolve_ignores_artifact_existence "E1" "d" "s.txt" "out"
    "/tmp/E1.artifact" ["d/genes_to_filenames.shelve"]
    [("d/genes_to_filenames.shelve", [("E1", "/tmp/E1.artifact")])]
    (by decide) (by decide)

/-- C9: on the success path, `plot_event`'s full effect trace is exactly the
index-file existence check, the shelve open, and one call to the external
gene-model renderer carrying precisely the settings file, the resolved
artifact path, the event identifier and the output directory — in
particular no statistics computation and no other effect occurs. -/
theorem C9_event_path_pure_orchestration
    (event_name pickle_dir settings_filename output_dir p : String) (w : World)
    (h1 : os_path_isfile w
      (os_path_join pickle_dir "genes_to_filenames.shelve") = true)
    (h2 : shelfGet
      (shelveContents w (os_path_join pickle_dir "genes_to_filenames.shelve"))
      event_name = some p) :
    (plot_event event_name pickle_dir settings_filename output_dir w =
      ([.isfileCheck (os_path_join pickle_dir "genes_to_filenames.shelve"),
        .shelveOpen (os_path_join pickle_dir "genes_to_filenames.shelve") "c",
        .renderDensity settings_filename p event_name output_dir], .ok ())) ∧
    ((plot_event event_name pickle_dir settings_filename output_dir w).1.all
      (fun e => ! e.isStatsComputation) = true) := by
  have he := plot_event_success_eval event_name pickle_dir settings_filename
    output_dir p w h1 h2
  exact ⟨he, by rw [he]; rfl⟩

/-- Witness for C9: the success trace at a concrete index store. -/
theorem C9_event_path_pure_orchestration_witness :
    (plot_event "E1" "d" "s.txt" "out"
        ⟨["d/genes_to_filenames.shelve"],
         [("d/genes_to_filenames.shelve", [("E1", "a.pickle")])]⟩ =
      ([.isfileCheck (os_path_join "d" "genes_to_filenames.shelve"),
        .shelveOpen (os_path_join "d" "genes_to_filenames.shelve") "c",
        .renderDensity "s.txt" "a.pickle" "E1" "out"], .ok ())) ∧
    ((plot_event "E1" "d" "s.txt" "out"
        ⟨["d/genes_to_filenames.shelve"],
         [("d/genes_to_filenames.shelve", [("E1", "a.pickle")])]⟩).1.all
      (fun e => ! e.isStatsComputation) = true) :=
  C9_event_path_pure_orchestration "E1" "d" "s.txt" "out" "a.pickle"
    ⟨["d/genes_to_filenames.shelve"],
     [("d/genes_to_filenames.shelve", [("E1", "a.pickle")])]⟩
    (by decide) (by decide)

/-- Counterexample to C3 as stated: at concrete inputs, on both the
not-found outcome and the success outcome, the store is opened with
shelve's default `"c"` (read-write-create) flag — not read-only — and no
close of the store ever appears in the trace, so the store is neither
opened read-only nor released after the lookup. -/
theorem C3_counterexample :
    ((plot_event "E1" "d" "s.txt" "out"
        ⟨["d/genes_to_filenames.shelve"],
         [("d/genes_to_filenames.shelve", [])]⟩).1 =
      [.isfileCheck "d/genes_to_filenames.shelve",
       .shelveOpen "d/genes_to_filenames.shelve" "c"]) ∧
    ((plot_event "E1" "d" "s.txt" "out"
        ⟨["d/genes_to_filenames.shelve"],
         [("d/genes_to_filenames.shelve", [])]⟩).1.all
      (fun e => ! e.isShelveClose) = true) ∧
    ((plot_event "E1" "d" "s.txt" "out"
        ⟨["d/genes_to_filenames.shelve"],
         [("d/genes_to_filenames.shelve", [("E1", "a.pickle")])]⟩).1.all
      (fun e => ! e.isShelveClose) = true) ∧
    "c" ≠ "r" := by decide

/-- C3 amended: for every invocation of the event-density path, every
shelve open in the trace uses shelve's default `"c"` (read-write-create)
flag rather than a read-only one, and no path — success, event-not-found,
or index-file-missing — ever closes the store; release is left to garbage
collection or process exit. -/
theorem C3_store_opened_readwrite_never_closed
    (event_name pickle_dir settings_filename output_dir : String) (w : World) :
    ((plot_event event_name pickle_dir settings_filename output_dir w).1.all
      (fun e => ! e.isShelveClose) = true) ∧
    (∀ q f, Eff.shelveOpen q f ∈
      (plot_event event_name pickle_dir settings_filename output_dir w).1 →
      f = "c") := by
  by_cases h1 : os_path_isfile w
      (os_path_join pickle_dir "genes_to_filenames.shelve") = true
  · by_cases h2 : shelfHasKey
        (shelveContents w (os_path_join pickle_dir "genes_to_filenames.shelve"))
        event_name = true
    · constructor
      · simp [plot_event, h1, h2, Eff.isShelveClose]
      · intro q f hmem
        simp [plot_event, h1, h2] at hmem
        exact hmem.2
    · constructor
      · simp [plot_event, h1, h2, Eff.isShelveClose]
      · intro q f hmem
        simp [plot_event, h1, h2] at hmem
        exact hmem.2
  · have h1' : os_path_isfile w
        (os_path_join pickle_dir "genes_to_filenames.shelve") = false :=
      Bool.not_eq_true _ ▸ eq_false_of_ne_true h1
    constructor
    · simp [plot_event, h1', Eff.isShelveClose]
    · intro q f hmem
      simp [plot_event, h1'] at hmem

/-- Witness for C3's amended theorem: a concrete trace with no close, and
the open-flag conclusion applied to the concrete shelve open it contains. -/
theorem C3_store_opened_readwrite_never_closed_witness :
    ((plot_event "E1" "d" "s.txt" "out"
        ⟨["d/genes_to_filenames.shelve"],
         [("d/genes_to_filenames.shelve", [])]⟩).1.all
      (fun e => ! e.isShelveClose) = true) ∧
    ("c" : String) = "c" :=
  ⟨(C3_store_opened_readwrite_never_closed "E1" "d" "s.txt" "out"
      ⟨["d/genes_to_filenames.shelve"],
       [("d/genes_to_filenames.shelve", [])]⟩).1,
   (C3_store_opened_readwrite_never_closed "E1" "d" "s.txt" "out"
      ⟨["d/genes_to_filenames.shelve"],
       [("d/genes_to_filenames.shelve", [])]⟩).2
     "d/genes_to_filenames.shelve" "c" (by decide)⟩

/-- Counterexample to C4 as stated: with every option absent, `main` prints
the error message and returns, and the process exit status is `0` — not
non-zero as the claim states. -/
theorem C4_counterexample :
    (main ⟨none, none, none, none, none⟩ (fun _ => true)).1 =
      [.printOut "Error: need --output-dir"] ∧
    (main ⟨none, none, none, none, none⟩ (fun _ => true)).2 = 0 ∧
    ¬ (main ⟨none, none, none, none, none⟩ (fun _ => true)).2 ≠ 0 := by
  refine ⟨rfl, rfl, fun h => h rfl⟩

/-- C4 amended: for every invocation in which `--output-dir` is absent,
`main` emits exactly the error message `"Error: need --output-dir"` and
returns at once — performing no directory creation and dispatching no
plotting path — and the process terminates with exit status zero (the
`return` at `plot.py` line 173 ends `main` normally). -/
theorem C4_missing_output_dir_message_zero_exit
    (opts : Options) (isdir : String → Bool)
    (h : opts.output_dir = none) :
    main opts isdir = ([.printOut "Error: need --output-dir"], 0) := by
  unfold main
  rw [h]

/-- Witness for C4's amended theorem at a concrete option record. -/
theorem C4_missing_output_dir_message_zero_exit_witness :
    (⟨none, none, none, none, none⟩ : Options).output_dir = none ∧
    main ⟨none, none, none, none, none⟩ (fun _ => false) =
      ([.printOut "Error: need --output-dir"], 0) :=
  ⟨rfl, C4_missing_output_dir_message_zero_exit
    ⟨none, none, none, none, none⟩ (fun _ => false) rfl⟩

/-- C10: an invocation supplying only `--plot-bf-dist` (with a valid
`--output-dir`) dispatches no path and persists no output — its whole
effect trace is free of dispatch calls and of output-file saves — while
each of the other three flags, whenever supplied together with an output
directory, dispatches to its implementation. The flag itself is a field of
the parsed `Options`, i.e. the parser accepts it. -/
theorem C10_bf_dist_reserved
    (isdir : String → Bool) (bf : String × String) (od : String) :
    ((main { plot_posterior := none, plot_insert_len := none,
             plot_bf_dist := some bf, plot_event := none,
             output_dir := some od } isdir).1.all
      (fun e => (! e.isDispatchCall) && (! e.isSavePlot)) = true) ∧
    (∀ (opts : Options) (f s : String),
      opts.plot_insert_len = some (f, s) → opts.output_dir = some od →
      Eff.callInsertLen (abspath_expanduser f) (abspath_expanduser s)
          (abspath_expanduser od) ∈ (main opts isdir).1) ∧
    (∀ (opts : Options) (f s : String),
      opts.plot_posterior = some (f, s) → opts.output_dir = some od →
      Eff.callPosterior (abspath_expanduser f) (abspath_expanduser s)
          (abspath_expanduser od) ∈ (main opts isdir).1) ∧
    (∀ (opts : Options) (ev d s : String),
      opts.plot_event = some (ev, d, s) → opts.output_dir = some od →
      Eff.callEvent ev (abspath_expanduser d) (abspath_expanduser s)
          (abspath_expanduser od) ∈ (main opts isdir).1) := by
  refine ⟨?_, ?_, ?_, ?_⟩
  · by_cases hd : isdir (abspath_expanduser od) = true
    · simp [main, hd]
    · have hd' : isdir (abspath_expanduser od) = false :=
        Bool.not_eq_true _ ▸ eq_false_of_ne_true hd
      simp [main, hd', Eff.isDispatchCall, Eff.isSavePlot]
  · rintro ⟨pp, pil, pbf, pev, pod⟩ f s hil hod
    simp only at hil hod
    subst hil hod
    cases pp <;> cases pev <;> simp [main]
  · rintro ⟨pp, pil, pbf, pev, pod⟩ f s hps hod
    simp only at hps hod
    subst hps hod
    cases pil <;> cases pev <;> simp [main]
  · rintro ⟨pp, pil, pbf, pev, pod⟩ ev d s hev hod
    simp only at hev hod
    subst hev hod
    cases pp <;> cases pil <;> simp [main]

/-- Witness for C10 at concrete option records. -/
theorem C10_bf_dist_reserved_witness :
    ((main { plot_posterior := none, plot_insert_len := none,
             plot_bf_dist := some ("b.miso_bf", "s.txt"), plot_event := none,
             output_dir := some "out" } (fun _ => true)).1.all
      (fun e => (! e.isDispatchCall) && (! e.isSavePlot)) = true) ∧
    (Eff.callInsertLen (abspath_expanduser "f.insert_len")
        (abspath_expanduser "s.txt") (abspath_expanduser "out") ∈
      (main { plot_posterior := none,
              plot_insert_len := some ("f.insert_len", "s.txt"),
              plot_bf_dist := none, plot_event := none,
              output_dir := some "out" } (fun _ => true)).1) := by
  have h := C10_bf_dist_reserved (fun _ => true) ("b.miso_bf", "s.txt") "out"
  exact ⟨h.1,
    h.2.1 ⟨none, some ("f.insert_len", "s.txt"), none, none, some "out"⟩
      "f.insert_len" "s.txt" rfl rfl⟩

/-- C6: under Python scoping, the body of `plot_posterior` reads
`with_intervals` (line 116) — a name that is not a parameter and whose only
assignments come later (lines 117/120), making it an unbound local at that
read — so for both truth values of each `if` condition the path stops with
an unbound-name error before the `sp.plot` renderer call resolves, and can
never complete; `plot_mean` and `dimensions` are moreover neither
parameters, nor assigned anywhere in the function, nor module-level names. -/
theorem C6_posterior_unbound_names (branch_wi branch_pm : Bool) :
    plot_posterior_scope branch_wi branch_pm =
      .error (.unboundLocal "with_intervals") ∧
    "with_intervals" ∉ pp_params ∧
    "plot_mean" ∉ pp_locals ∧ "plot_mean" ∉ pp_globals ∧
    "dimensions" ∉ pp_locals ∧ "dimensions" ∉ pp_globals ∧
    plot_posterior_scope branch_wi branch_pm ≠ .ok () := by
  cases branch_wi <;> cases branch_pm <;> decide

/-- Witness for C6 at concrete branch decisions. -/
theorem C6_posterior_unbound_names_witness :
    plot_posterior_scope true true =
      .error (.unboundLocal "with_intervals") ∧
    "with_intervals" ∉ pp_params ∧
    "plot_mean" ∉ pp_locals ∧ "plot_mean" ∉ pp_globals ∧
    "dimensions" ∉ pp_locals ∧ "dimensions" ∉ pp_globals ∧
    plot_posterior_scope true true ≠ .ok () :=
  C6_posterior_unbound_names true true

/-- Counterexample to C7 as stated: the credible-interval conversion of the
posterior path raises nothing for out-of-range widths — `width_percent =
150` is converted to the fraction `3/2` and `width_percent = 0` to the
fraction `0`, instead of being rejected. -/
theorem C7_counterexample :
    convert_with_intervals (some 150) = .fraction (3 / 2) ∧
    convert_with_intervals (some 0) = .fraction 0 := by
  constructor <;> · show IntervalSetting.fraction _ = _ ; norm_num

/-- C7 amended: the posterior path performs no range validation of the
credible-interval width at all: every supplied width `w` — inside or
outside `(0, 100]` — is converted to the fraction `w / 100` handed to the
plotter (so width 90 yields 9/10 = 0.90, but 0 yields 0 and 150 yields 3/2
without any error), and an absent width yields no interval; there is no
`InvalidInputError` in the code. (Independently, these statements are
unreachable: the path stops on the unbound name `with_intervals` first.) -/
theorem C7_no_width_validation (w : Rat) :
    convert_with_intervals (some w) = .fraction (w / 100) ∧
    convert_with_intervals none = .noInterval ∧
    convert_with_intervals (some 90) = .fraction (9 / 10) := by
  refine ⟨rfl, rfl, ?_⟩
  show IntervalSetting.fraction ((90 : Rat) / 100) = .fraction (9 / 10)
  norm_num

/-- Witness for C7's amended theorem at the concrete width 150. -/
theorem C7_no_width_validation_witness :
    convert_with_intervals (some 150) = .fraction ((150 : Rat) / 100) ∧
    convert_with_intervals none = .noInterval ∧
    convert_with_intervals (some 90) = .fraction (9 / 10) :=
  C7_no_width_validation 150

/-- Counterexample to C5 as stated: at concrete inputs, the insert-length
path's trace invokes the loader on its input file while containing no
file-existence check whatsoever — so it is not true that every dispatcher
path checks its required input file(s) exist before loading. -/
theorem C5_counterexample :
    (Eff.loadInsertLen "f.insert_len" ∈
      (plot_insert_len "f.insert_len" "s.txt" "out" [("insert_len_bins", 10)]
        [100, 150] (fun _ => ⟨125, 25, 5, 2⟩)).1) ∧
    ((plot_insert_len "f.insert_len" "s.txt" "out" [("insert_len_bins", 10)]
        [100, 150] (fun _ => ⟨125, 25, 5, 2⟩)).1.all
      (fun e => ! e.isFileExistenceCheck) = true) := by
  constructor
  · simp [plot_insert_len]
    decide
  · decide

/-- C5 amended: only the event-density path checks its required input (the
index store file) for existence before any loading — it is the very first
effect of its trace, and a missing file aborts the path; the insert-length
path performs no file-existence check anywhere in its trace and hands the
input path straight to the loader; the posterior path likewise performs no
file-existence check, its very first effect is the loader call on its
input file, and it then stops on the unbound name `with_intervals`; and a
path whose CLI flag is not supplied performs no work: its dispatch call
never appears in `main`'s trace. -/
theorem C5_only_event_path_validates
    (event_name pickle_dir settings_filename output_dir : String) (w : World)
    (f2 s2 o2 : String) (settings : List (String × Int))
    (insert_dist : List Rat) (engine : List Rat → ILStats)
    (f3 s3 o3 : String) (branch_wi branch_pm : Bool)
    (isdir : String → Bool) :
    ((plot_event event_name pickle_dir settings_filename output_dir
        w).1.head? = some (.isfileCheck
          (os_path_join pickle_dir "genes_to_filenames.shelve"))) ∧
    (os_path_isfile w (os_path_join pickle_dir "genes_to_filenames.shelve")
        = false →
      (plot_event event_name pickle_dir settings_filename output_dir w).2 =
        .error (.indexFileMissing
          (os_path_join pickle_dir "genes_to_filenames.shelve"))) ∧
    ((plot_insert_len f2 s2 o2 settings insert_dist engine).1.all
      (fun e => ! e.isFileExistenceCheck) = true) ∧
    ((plot_posterior f3 s3 o3 branch_wi branch_pm).1.all
      (fun e => ! e.isFileExistenceCheck) = true) ∧
    ((plot_posterior f3 s3 o3 branch_wi branch_pm).1.head? =
      some (.loadSamples f3)) ∧
    ((plot_posterior f3 s3 o3 branch_wi branch_pm).2 =
      .error (.unboundLocal "with_intervals")) ∧
    (∀ (opts : Options) (a b c : String), opts.plot_insert_len = none →
      Eff.callInsertLen a b c ∉ (main opts isdir).1) ∧
    (∀ (opts : Options) (a b c : String), opts.plot_posterior = none →
      Eff.callPosterior a b c ∉ (main opts isdir).1) ∧
    (∀ (opts : Options) (a b c d : String), opts.plot_event = none →
      Eff.callEvent a b c d ∉ (main opts isdir).1) := by
  refine ⟨?_, ?_, ?_, ?_, ?_, ?_, ?_, ?_, ?_⟩
  · by_cases h1 : os_path_isfile w
        (os_path_join pickle_dir "genes_to_filenames.shelve") = true
    · by_cases h2 : shelfHasKey (shelveContents w
          (os_path_join pickle_dir "genes_to_filenames.shelve"))
          event_name = true
      · simp [plot_event, h1, h2]
      · simp [plot_event, h1, h2]
    · have h1' := Bool.not_eq_true _ ▸ eq_false_of_ne_true h1
      simp [plot_event, h1']
  · intro h1
    simp [plot_event, h1]
  · rcases hs : settings_get settings "insert_len_bins" with _ | nb
    · simp [plot_insert_len, hs, Eff.isFileExistenceCheck]
    · cases insert_dist with
      | nil => simp [plot_insert_len, hs, Eff.isFileExistenceCheck]
      | cons d ds => simp [plot_insert_len, hs, Eff.isFileExistenceCheck]
  · cases branch_wi <;> cases branch_pm <;> rfl
  · cases branch_wi <;> cases branch_pm <;> rfl
  · cases branch_wi <;> cases branch_pm <;> rfl
  · rintro ⟨pp, pil, pbf, pev, pod⟩ a b c hil
    simp only at hil
    subst hil
    cases pod with
    | none => simp [main]
    | some od => cases pp <;> cases pev <;>
        by_cases hd : isdir (abspath_expanduser od) = true <;>
        simp [main, hd]
  · rintro ⟨pp, pil, pbf, pev, pod⟩ a b c hps
    simp only at hps
    subst hps
    cases pod with
    | none => simp [main]
    | some od => cases pil <;> cases pev <;>
        by_cases hd : isdir (abspath_expanduser od) = true <;>
        simp [main, hd]
  · rintro ⟨pp, pil, pbf, pev, pod⟩ a b c d hev
    simp only at hev
    subst hev
    cases pod with
    | none => simp [main]
    | some od => cases pp <;> cases pil <;>
        by_cases hd : isdir (abspath_expanduser od) = true <;>
        simp [main, hd]

/-- Witness for C5's amended theorem at concrete inputs. -/
theorem C5_only_event_path_validates_witness :
    ((plot_event "E1" "d" "s.txt" "out" ⟨[], []⟩).1.head? =
      some (.isfileCheck (os_path_join "d" "genes_to_filenames.shelve"))) ∧
    ((plot_event "E1" "d" "s.txt" "out" ⟨[], []⟩).2 =
      .error (.indexFileMissing
        (os_path_join "d" "genes_to_filenames.shelve"))) ∧
    ((plot_insert_len "f.insert_len" "s.txt" "out" [("insert_len_bins", 10)]
        [100, 150] (fun _ => ⟨125, 25, 5, 2⟩)).1.all
      (fun e => ! e.isFileExistenceCheck) = true) ∧
    ((plot_posterior "m.miso" "s.txt" "out" true true).1.all
      (fun e => ! e.isFileExistenceCheck) = true) ∧
    ((plot_posterior "m.miso" "s.txt" "out" true true).1.head? =
      some (.loadSamples "m.miso")) ∧
    ((plot_posterior "m.miso" "s.txt" "out" true true).2 =
      .error (.unboundLocal "with_intervals")) ∧
    (Eff.callInsertLen "a" "b" "c" ∉
      (main ⟨none, none, none, none, some "out"⟩ (fun _ => true)).1) := by
  have h := C5_only_event_path_validates "E1" "d" "s.txt" "out" ⟨[], []⟩
    "f.insert_len" "s.txt" "out" [("insert_len_bins", 10)] [100, 150]
    (fun _ => ⟨125, 25, 5, 2⟩) "m.miso" "s.txt" "out" true true
    (fun _ => true)
  exact ⟨h.1, h.2.1 (by decide), h.2.2.1, h.2.2.2.1, h.2.2.2.2.1,
    h.2.2.2.2.2.1,
    h.2.2.2.2.2.2.1 ⟨none, none, none, none, some "out"⟩ "a" "b" "c" rfl⟩

/-- C8: every successful insert-length invocation (settings provide
`insert_len_bins`, distribution non-empty) loads the distribution file,
invokes the statistics engine, renders the histogram with the
settings-configured bin count, titles the chart with the computed pair
count, annotates it with the computed mean, standard deviation and
dispersion (displayed through Python's `round(·, 2)`), and persists exactly
one output file, named from the input file's base name under the output
directory. -/
theorem C8_insert_len_path
    (insert_len_filename settings_filename output_dir : String)
    (settings : List (String × Int)) (d : Rat) (ds : List Rat)
    (engine : List Rat → ILStats) (num_bins : Int)
    (h : settings_get settings "insert_len_bins" = some num_bins) :
    ((plot_insert_len insert_len_filename settings_filename output_dir
        settings (d :: ds) engine).2 = .ok ()) ∧
    (Eff.loadInsertLen insert_len_filename ∈
      (plot_insert_len insert_len_filename settings_filename output_dir
        settings (d :: ds) engine).1) ∧
    (Eff.computeStats (engine (d :: ds)).mean (engine (d :: ds)).sdev
        (engine (d :: ds)).dispersion (engine (d :: ds)).num_pairs ∈
      (plot_insert_len insert_len_filename settings_filename output_dir
        settings (d :: ds) engine).1) ∧
    (Eff.histogram num_bins ∈
      (plot_insert_len insert_len_filename settings_filename output_dir
        settings (d :: ds) engine).1) ∧
    (Eff.chartTitle (os_path_basename insert_len_filename)
        (engine (d :: ds)).num_pairs ∈
      (plot_insert_len insert_len_filename settings_filename output_dir
        settings (d :: ds) engine).1) ∧
    (Eff.chartText (pythonRound2 (engine (d :: ds)).mean)
        (pythonRound2 (engine (d :: ds)).sdev)
        (pythonRound2 (engine (d :: ds)).dispersion) ∈
      (plot_insert_len insert_len_filename settings_filename output_dir
        settings (d :: ds) engine).1) ∧
    (((plot_insert_len insert_len_filename settings_filename output_dir
        settings (d :: ds) engine).1.filter
          (fun e => e.isSavePlot)).length = 1) ∧
    (Eff.savePlot (sashimi_output_filename output_dir
        (os_path_basename insert_len_filename)) ∈
      (plot_insert_len insert_len_filename settings_filename output_dir
        settings (d :: ds) engine).1) := by
  refine ⟨?_, ?_, ?_, ?_, ?_, ?_, ?_, ?_⟩ <;>
    simp [plot_insert_len, h, Eff.isSavePlot]

/-- Witness for C8: the spec's end-to-end distribution
`[100, 150, 120, 130, 140]` with bin count 5 and a concrete engine record. -/
theorem C8_insert_len_path_witness :
    (settings_get [("insert_len_bins", 5)] "insert_len_bins" = some 5) ∧
    (((plot_insert_len "x/f.insert_len" "s.txt" "out"
        [("insert_len_bins", 5)] (100 :: [150, 120, 130, 140])
        (fun _ => ⟨128, 17, 2, 5⟩)).2 = .ok ()) ∧
     (Eff.loadInsertLen "x/f.insert_len" ∈
       (plot_insert_len "x/f.insert_len" "s.txt" "out"
         [("insert_len_bins", 5)] (100 :: [150, 120, 130, 140])
         (fun _ => ⟨128, 17, 2, 5⟩)).1) ∧
     (Eff.computeStats
         ((fun (_ : List Rat) => (⟨128, 17, 2, 5⟩ : ILStats))
           (100 :: [150, 120, 130, 140])).mean
         ((fun (_ : List Rat) => (⟨128, 17, 2, 5⟩ : ILStats))
           (100 :: [150, 120, 130, 140])).sdev
         ((fun (_ : List Rat) => (⟨128, 17, 2, 5⟩ : ILStats))
           (100 :: [150, 120, 130, 140])).dispersion
         ((fun (_ : List Rat) => (⟨128, 17, 2, 5⟩ : ILStats))
           (100 :: [150, 120, 130, 140])).num_pairs ∈
       (plot_insert_len "x/f.insert_len" "s.txt" "out"
         [("insert_len_bins", 5)] (100 :: [150, 120, 130, 140])
         (fun _ => ⟨128, 17, 2, 5⟩)).1) ∧
     (Eff.histogram 5 ∈
       (plot_insert_len "x/f.insert_len" "s.txt" "out"
         [("insert_len_bins", 5)] (100 :: [150, 120, 130, 140])
         (fun _ => ⟨128, 17, 2, 5⟩)).1) ∧
     (Eff.chartTitle (os_path_basename "x/f.insert_len")
         ((fun (_ : List Rat) => (⟨128, 17, 2, 5⟩ : ILStats))
           (100 :: [150, 120, 130, 140])).num_pairs ∈
       (plot_insert_len "x/f.insert_len" "s.txt" "out"
         [("insert_len_bins", 5)] (100 :: [150, 120, 130, 140])
         (fun _ => ⟨128, 17, 2, 5⟩)).1) ∧
     (Eff.chartText
         (pythonRound2 ((fun (_ : List Rat) => (⟨128, 17, 2, 5⟩ : ILStats))
           (100 :: [150, 120, 130, 140])).mean)
         (pythonRound2 ((fun (_ : List Rat) => (⟨128, 17, 2, 5⟩ : ILStats))
           (100 :: [150, 120, 130, 140])).sdev)
         (pythonRound2 ((fun (_ : List Rat) => (⟨128, 17, 2, 5⟩ : ILStats))
           (100 :: [150, 120, 130, 140])).dispersion) ∈
       (plot_insert_len "x/f.insert_len" "s.txt" "out"
         [("insert_len_bins", 5)] (100 :: [150, 120, 130, 140])
         (fun _ => ⟨128, 17, 2, 5⟩)).1) ∧
     (((plot_insert_len "x/f.insert_len" "s.txt" "out"
         [("insert_len_bins", 5)] (100 :: [150, 120, 130, 140])
         (fun _ => ⟨128, 17, 2, 5⟩)).1.filter
           (fun e => e.isSavePlot)).length = 1) ∧
     (Eff.savePlot (sashimi_output_filename "out"
         (os_path_basename "x/f.insert_len")) ∈
       (plot_insert_len "x/f.insert_len" "s.txt" "out"
         [("insert_len_bins", 5)] (100 :: [150, 120, 130, 140])
         (fun _ => ⟨128, 17, 2, 5⟩)).1)) :=
  ⟨by decide,
   C8_insert_len_path "x/f.insert_len" "s.txt" "out" [("insert_len_bins", 5)]
     100 [150, 120, 130, 140] (fun _ => ⟨128, 17, 2, 5⟩) 5 (by decide)⟩

end SashimiPlot
